import Mathlib

/-
Verification of the risk-evaluation service in `src/app.py`.

The numeric inputs of the service are Python floats; the embedding models
them as rationals, so every threshold comparison of the source is exact.
Risk probabilities are Python ints, modelled as integers.  The rule
functions, the inference adapter and the request handler are translated
function by function from `app.py`; the Keras model and its scaler are
opaque collaborators, so the handler is parametrised by two arbitrary
functions standing for `scaler.transform` and `model.predict`.
-/

namespace App

/-- The `{"probabilidad": .., "nivel": ..}` dictionaries returned by the
rule functions of `app.py` (lines 47-127). -/
structure RiskAssessment where
  probabilidad : ℤ
  nivel : String
deriving DecidableEq

/-- `calcular_hipertension` (app.py lines 47-56). -/
def calcular_hipertension (sys_bp dia_bp : ℚ) : RiskAssessment :=
  if 140 ≤ sys_bp ∨ 90 ≤ dia_bp then ⟨92, "Alto"⟩
  else if 130 ≤ sys_bp ∨ 80 ≤ dia_bp then ⟨75, "Moderado"⟩
  else if 120 ≤ sys_bp ∧ dia_bp < 80 then ⟨45, "Moderado"⟩
  else ⟨10, "Bajo"⟩

/-- `calcular_diabetes` (app.py lines 58-65). -/
def calcular_diabetes (glucosa : ℚ) : RiskAssessment :=
  if 126 ≤ glucosa then ⟨95, "Alto"⟩
  else if 100 ≤ glucosa then ⟨45, "Moderado"⟩
  else ⟨10, "Bajo"⟩

/-- The `riesgos` list built by `calcular_dislipidemia` (app.py lines 73-88):
the sub-checks that trigger, in source order (LDL, then HDL, then total). -/
def dislipidemia_riesgos (ldl hdl total : ℚ) : List RiskAssessment :=
  (if 160 ≤ ldl then [⟨85, "Alto"⟩] else if 130 ≤ ldl then [⟨60, "Moderado"⟩] else [])
    ++ (if hdl < 40 then [⟨90, "Alto"⟩] else [])
    ++ (if 240 ≤ total then [⟨80, "Alto"⟩] else if 200 ≤ total then [⟨50, "Moderado"⟩] else [])

/-- Python `max(l, key=k)` on a nonempty list `a :: l`: the first element
with the largest key. -/
def pyMaxBy (key : RiskAssessment → ℤ) (a : RiskAssessment) (l : List RiskAssessment) :
    RiskAssessment :=
  l.foldl (fun acc x => if key acc < key x then x else acc) a

/-- `calcular_dislipidemia` (app.py lines 67-95). -/
def calcular_dislipidemia (ldl hdl total : ℚ) : RiskAssessment :=
  match dislipidemia_riesgos ldl hdl total with
  | [] => ⟨10, "Bajo"⟩
  | r :: rs => pyMaxBy (fun x => x.probabilidad) r rs

/-- The `puntos_riesgo` accumulator of `calcular_riesgo_estilo_vida`
(app.py lines 101-108). -/
def puntos_riesgo (fumador : Bool) (actividad alcohol : String) : ℕ :=
  (if fumador then 1 else 0)
    + (if actividad = "Sedentario" then 1 else 0)
    + (if alcohol = "Moderado" ∨ alcohol = "Alto" then 1 else 0)

/-- `calcular_riesgo_estilo_vida` (app.py lines 97-118). -/
def calcular_riesgo_estilo_vida (fumador : Bool) (actividad alcohol : String) :
    RiskAssessment :=
  if puntos_riesgo fumador actividad alcohol = 3 then ⟨90, "Alto"⟩
  else if puntos_riesgo fumador actividad alcohol = 2 then ⟨60, "Moderado"⟩
  else if puntos_riesgo fumador actividad alcohol = 1 then ⟨30, "Bajo"⟩
  else ⟨10, "Bajo"⟩

/-- `nivel_riesgo_coronario` (app.py lines 120-127). -/
def nivel_riesgo_coronario (prob_raw : ℚ) : String :=
  if 0.70 ≤ prob_raw then ("Alto")
  else if 0.30 ≤ prob_raw then ("Moderado")
  else ("Bajo")

/-- Python `int(q)` on a float value `q`: truncation toward zero. -/
def pyInt (q : ℚ) : ℤ := if 0 ≤ q then ⌊q⌋ else ⌈q⌉

/-- `prob_coronaria_pct = int(prob_coronaria_raw * 100)` (app.py line 165). -/
def prob_coronaria_pct (prob_raw : ℚ) : ℤ := pyInt (prob_raw * 100)

/-- The JSON request body of `POST /api/evaluate`.  Every required field is
optional here: a `none` field models a key absent from the payload. -/
structure Payload where
  edad : Option ℚ
  sexo : Option String
  altura_cm : Option ℚ
  peso_kg : Option ℚ
  presion_sistolica : Option ℚ
  presion_diastolica : Option ℚ
  colesterol_total : Option ℚ
  colesterol_ldl : Option ℚ
  colesterol_hdl : Option ℚ
  glucosa : Option ℚ
  fumador : Option Bool
  actividad_fisica : Option String
  consumo_alcohol : Option String
deriving DecidableEq

/-- One element of the `probabilidades_enfermedades` array of the response
(app.py lines 209-235). -/
structure CondEntry where
  enfermedad : String
  probabilidad : ℤ
  nivel : String
deriving DecidableEq

/-- The success response body `response_json` (app.py lines 206-236). -/
structure Report where
  riesgo_general : ℤ
  modelo_version : String
  probabilidades_enfermedades : List CondEntry
deriving DecidableEq

/-- `data[k]` in Python: raises `KeyError(k)` when key `k` is absent, which
the handler catches and turns into the 400 response naming the field
(app.py lines 240-241).  The error value is the missing field name. -/
def getF {α : Type} (o : Option α) (name : String) : Except String α :=
  match o with
  | some v => Except.ok v
  | none => Except.error name

/-- Python `max` over a list of ints; the handler only applies it to the
nonempty five-element list `probabilidades` (app.py line 203). -/
def pyMax (l : List ℤ) : ℤ :=
  match l with
  | [] => 0
  | x :: xs => xs.foldl max x

/-- The `input_data` feature vector (app.py lines 148-157), in the exact
source order. -/
def featureVector (edad : ℚ) (sexo : String) (sys dia tot glu bmi : ℚ) (fum : Bool) :
    List ℚ :=
  [edad, if sexo = "Masculino" then 1 else 0, sys, dia, tot, glu, bmi,
    if fum then 1 else 0]

/-- The success response built at app.py lines 192-236 from the raw model
probability and the clinical fields: `riesgo_general` is the Python `max`
of the five probabilities and the five conditions appear in source order. -/
def mkReport (raw : ℚ) (sys dia glu ldl hdl tot : ℚ) (fum : Bool) (act alc : String) :
    Report :=
  { riesgo_general := pyMax
      [prob_coronaria_pct raw,
        (calcular_hipertension sys dia).probabilidad,
        (calcular_diabetes glu).probabilidad,
        (calcular_dislipidemia ldl hdl tot).probabilidad,
        (calcular_riesgo_estilo_vida fum act alc).probabilidad]
    modelo_version := "1.2-hibrido-avanzado"
    probabilidades_enfermedades :=
      [⟨"Coronary Artery Disease", prob_coronaria_pct raw, nivel_riesgo_coronario raw⟩,
        ⟨"Hypertension", (calcular_hipertension sys dia).probabilidad,
          (calcular_hipertension sys dia).nivel⟩,
        ⟨"Type 2 Diabetes", (calcular_diabetes glu).probabilidad,
          (calcular_diabetes glu).nivel⟩,
        ⟨"Dislipidemia (Colesterol)", (calcular_dislipidemia ldl hdl tot).probabilidad,
          (calcular_dislipidemia ldl hdl tot).nivel⟩,
        ⟨"Riesgo por Estilo de Vida", (calcular_riesgo_estilo_vida fum act alc).probabilidad,
          (calcular_riesgo_estilo_vida fum act alc).nivel⟩] }

/-- The `POST /api/evaluate` handler `evaluate_risk` (app.py lines 134-243),
for a process whose model and scaler loaded successfully.  The opaque
collaborators `scaler.transform` and `model.predict` are the parameters
`scalerTransform` and `modelPredict`.  Fields are read in the exact order
of the source, so the error is named after the first absent key, as the
first `KeyError` raised by the Python code would be. -/
def evaluate_risk (scalerTransform : List ℚ → List ℚ) (modelPredict : List ℚ → ℚ)
    (data : Payload) : Except String Report := do
  let altura_cm ← getF data.altura_cm ("altura_cm")
  let peso_kg ← getF data.peso_kg ("peso_kg")
  let altura_m := altura_cm / 100
  let bmi := peso_kg / (altura_m ^ 2)
  let edad ← getF data.edad ("edad")
  let sexo ← getF data.sexo ("sexo")
  let presion_sistolica ← getF data.presion_sistolica ("presion_sistolica")
  let presion_diastolica ← getF data.presion_diastolica ("presion_diastolica")
  let colesterol_total ← getF data.colesterol_total ("colesterol_total")
  let glucosa ← getF data.glucosa ("glucosa")
  let fumador ← getF data.fumador ("fumador")
  let input_data := featureVector edad sexo presion_sistolica presion_diastolica
    colesterol_total glucosa bmi fumador
  let input_scaled := scalerTransform input_data
  let prob_coronaria_raw := modelPredict input_scaled
  let colesterol_ldl ← getF data.colesterol_ldl ("colesterol_ldl")
  let colesterol_hdl ← getF data.colesterol_hdl ("colesterol_hdl")
  let actividad_fisica ← getF data.actividad_fisica ("actividad_fisica")
  let consumo_alcohol ← getF data.consumo_alcohol ("consumo_alcohol")
  Except.ok (mkReport prob_coronaria_raw presion_sistolica presion_diastolica glucosa
    colesterol_ldl colesterol_hdl colesterol_total fumador actividad_fisica consumo_alcohol)

/-- The names of the thirteen required fields of the request body. -/
def requiredFields : List String :=
  ["edad", "sexo", "altura_cm", "peso_kg", "presion_sistolica", "presion_diastolica",
    "colesterol_total", "colesterol_ldl", "colesterol_hdl", "glucosa", "fumador",
    "actividad_fisica", "consumo_alcohol"]

/-- Whether the field called `name` is absent from the payload. -/
def fieldMissing (data : Payload) (name : String) : Bool :=
  if name = "edad" then data.edad.isNone
  else if name = "sexo" then data.sexo.isNone
  else if name = "altura_cm" then data.altura_cm.isNone
  else if name = "peso_kg" then data.peso_kg.isNone
  else if name = "presion_sistolica" then data.presion_sistolica.isNone
  else if name = "presion_diastolica" then data.presion_diastolica.isNone
  else if name = "colesterol_total" then data.colesterol_total.isNone
  else if name = "colesterol_ldl" then data.colesterol_ldl.isNone
  else if name = "colesterol_hdl" then data.colesterol_hdl.isNone
  else if name = "glucosa" then data.glucosa.isNone
  else if name = "fumador" then data.fumador.isNone
  else if name = "actividad_fisica" then data.actividad_fisica.isNone
  else if name = "consumo_alcohol" then data.consumo_alcohol.isNone
  else false

/-- A concrete complete payload, the worked example of the spec (section 8). -/
def samplePayload : Payload :=
  { edad := some 50
    sexo := some ("Masculino")
    altura_cm := some 170
    peso_kg := some 70
    presion_sistolica := some 145
    presion_diastolica := some 95
    colesterol_total := some 250
    colesterol_ldl := some 170
    colesterol_hdl := some 35
    glucosa := some 130
    fumador := some true
    actividad_fisica := some ("Sedentario")
    consumo_alcohol := some ("Moderado") }

/-- The sample payload with the `glucosa` field removed. -/
def missingPayload : Payload := { samplePayload with glucosa := none }

/-- The response the handler produces for `samplePayload` when the model
returns a raw probability of 0. -/
def sampleReport : Report :=
  { riesgo_general := 95
    modelo_version := "1.2-hibrido-avanzado"
    probabilidades_enfermedades :=
      [⟨"Coronary Artery Disease", 0, "Bajo"⟩,
        ⟨"Hypertension", 92, "Alto"⟩,
        ⟨"Type 2 Diabetes", 95, "Alto"⟩,
        ⟨"Dislipidemia (Colesterol)", 90, "Alto"⟩,
        ⟨"Riesgo por Estilo de Vida", 90, "Alto"⟩] }

/-
Helper lemmas shared by the claim theorems.
-/

theorem error_ne_ok {ε α : Type} {x : Except ε α} {e : ε} (h : x = Except.error e) :
    ∀ a : α, x ≠ Except.ok a := by
  intro a ha
  rw [h] at ha
  exact Except.noConfusion ha

/-- Inversion of the handler: a success response determines all thirteen
fields of the payload and the exact shape of the report. -/
theorem evaluate_risk_ok_shape (sc : List ℚ → List ℚ) (mp : List ℚ → ℚ) (data : Payload)
    (report : Report) (h : evaluate_risk sc mp data = Except.ok report) :
    ∃ (edad : ℚ) (sexo : String) (altura peso sys dia tot ldl hdl glu : ℚ)
      (fum : Bool) (act alc : String),
      data.edad = some edad ∧ data.sexo = some sexo ∧ data.altura_cm = some altura ∧
      data.peso_kg = some peso ∧ data.presion_sistolica = some sys ∧
      data.presion_diastolica = some dia ∧ data.colesterol_total = some tot ∧
      data.colesterol_ldl = some ldl ∧ data.colesterol_hdl = some hdl ∧
      data.glucosa = some glu ∧ data.fumador = some fum ∧
      data.actividad_fisica = some act ∧ data.consumo_alcohol = some alc ∧
      report = mkReport
        (mp (sc (featureVector edad sexo sys dia tot glu (peso / ((altura / 100) ^ 2)) fum)))
        sys dia glu ldl hdl tot fum act alc := by
  obtain ⟨oe, os, oa, op, ops, opd, oct, ocl, och, og, ofu, oaf, oca⟩ := data
  obtain _ | altura := oa
  · exact absurd h (error_ne_ok rfl report)
  obtain _ | peso := op
  · exact absurd h (error_ne_ok rfl report)
  obtain _ | edad := oe
  · exact absurd h (error_ne_ok rfl report)
  obtain _ | sexo := os
  · exact absurd h (error_ne_ok rfl report)
  obtain _ | sys := ops
  · exact absurd h (error_ne_ok rfl report)
  obtain _ | dia := opd
  · exact absurd h (error_ne_ok rfl report)
  obtain _ | tot := oct
  · exact absurd h (error_ne_ok rfl report)
  obtain _ | glu := og
  · exact absurd h (error_ne_ok rfl report)
  obtain _ | fum := ofu
  · exact absurd h (error_ne_ok rfl report)
  obtain _ | ldl := ocl
  · exact absurd h (error_ne_ok rfl report)
  obtain _ | hdl := och
  · exact absurd h (error_ne_ok rfl report)
  obtain _ | act := oaf
  · exact absurd h (error_ne_ok rfl report)
  obtain _ | alc := oca
  · exact absurd h (error_ne_ok rfl report)
  injection h with h
  exact ⟨edad, sexo, altura, peso, sys, dia, tot, ldl, hdl, glu, fum, act, alc,
    rfl, rfl, rfl, rfl, rfl, rfl, rfl, rfl, rfl, rfl, rfl, rfl, rfl, h.symm⟩

/-- Python `max` over a five-element list: an upper bound attained by one
of the elements. -/
theorem pyMax_five (a b c d e : ℤ) :
    a ≤ pyMax [a, b, c, d, e] ∧ b ≤ pyMax [a, b, c, d, e] ∧ c ≤ pyMax [a, b, c, d, e] ∧
    d ≤ pyMax [a, b, c, d, e] ∧ e ≤ pyMax [a, b, c, d, e] ∧
    (pyMax [a, b, c, d, e] = a ∨ pyMax [a, b, c, d, e] = b ∨ pyMax [a, b, c, d, e] = c ∨
      pyMax [a, b, c, d, e] = d ∨ pyMax [a, b, c, d, e] = e) := by
  simp only [pyMax, List.foldl, max_def]
  split_ifs <;> omega

/-- The probability returned by the hypertension rule, as a plain band
function of the two pressures. -/
theorem hipertension_prob_eq (s d : ℚ) :
    (calcular_hipertension s d).probabilidad =
      if 140 ≤ s ∨ 90 ≤ d then 92
      else if 130 ≤ s ∨ 80 ≤ d then 75
      else if 120 ≤ s then 45
      else 10 := by
  unfold calcular_hipertension
  split_ifs with h1 h2 h3 h4 h5
  · rfl
  · rfl
  · rfl
  · exact absurd h3.1 h4
  · exfalso
    push_neg at h2 h3
    linarith [h3 h5, h2.2]
  · rfl

/-- The probability returned by the diabetes rule, as a plain band function
of the glucose level. -/
theorem diabetes_prob_eq (g : ℚ) :
    (calcular_diabetes g).probabilidad =
      if 126 ≤ g then 95 else if 100 ≤ g then 45 else 10 := by
  unfold calcular_diabetes
  split_ifs <;> rfl

/-- Full case analysis of the dyslipidemia rule: the result probability is
canonical, the empty-trigger case gives the low assessment, and the result
dominates and belongs to the triggered sub-checks. -/
theorem dislipidemia_spec (ldl hdl total : ℚ) :
    (calcular_dislipidemia ldl hdl total).probabilidad ∈ ([10, 50, 60, 80, 85, 90] : List ℤ) ∧
    (dislipidemia_riesgos ldl hdl total = [] →
      calcular_dislipidemia ldl hdl total = ⟨10, "Bajo"⟩) ∧
    (∀ x ∈ dislipidemia_riesgos ldl hdl total,
      x.probabilidad ≤ (calcular_dislipidemia ldl hdl total).probabilidad) ∧
    (dislipidemia_riesgos ldl hdl total ≠ [] →
      calcular_dislipidemia ldl hdl total ∈ dislipidemia_riesgos ldl hdl total) := by
  by_cases h1 : (160:ℚ) ≤ ldl <;> by_cases h2 : (130:ℚ) ≤ ldl <;>
    by_cases h3 : hdl < 40 <;> by_cases h4 : (240:ℚ) ≤ total <;>
    by_cases h5 : (200:ℚ) ≤ total <;>
    (simp only [calcular_dislipidemia, dislipidemia_riesgos, pyMaxBy, h1, h2, h3, h4, h5,
      ite_true, ite_false, List.cons_append, List.nil_append, List.append_nil]) <;>
    decide

/-- The dyslipidemia rule never goes below the low band. -/
theorem dislipidemia_ge_ten (ldl hdl total : ℚ) :
    10 ≤ (calcular_dislipidemia ldl hdl total).probabilidad := by
  have hm := (dislipidemia_spec ldl hdl total).1
  simp only [List.mem_cons, List.not_mem_nil, or_false] at hm
  rcases hm with h | h | h | h | h | h <;> rw [h] <;> norm_num

/-- The hypertension rule never goes below the low band. -/
theorem hipertension_ge_ten (s d : ℚ) : 10 ≤ (calcular_hipertension s d).probabilidad := by
  rw [hipertension_prob_eq]
  split_ifs <;> norm_num

/-- The diabetes rule never goes below the low band. -/
theorem diabetes_ge_ten (g : ℚ) : 10 ≤ (calcular_diabetes g).probabilidad := by
  rw [diabetes_prob_eq]
  split_ifs <;> norm_num

/-- The lifestyle rule never goes below the low band. -/
theorem estilo_ge_ten (f : Bool) (a al : String) :
    10 ≤ (calcular_riesgo_estilo_vida f a al).probabilidad := by
  unfold calcular_riesgo_estilo_vida
  split_ifs <;> decide

/-- Evaluating the handler on the complete sample payload with a model that
returns a raw probability of 0 yields exactly `sampleReport`. -/
theorem sample_eval :
    evaluate_risk (fun l => l) (fun _ => 0) samplePayload = Except.ok sampleReport := by
  show Except.ok (mkReport 0 145 95 130 170 35 250 true ("Sedentario") ("Moderado"))
    = Except.ok sampleReport
  norm_num [mkReport, prob_coronaria_pct, pyInt, nivel_riesgo_coronario, sampleReport,
    calcular_hipertension, calcular_diabetes, calcular_dislipidemia, dislipidemia_riesgos,
    pyMaxBy, calcular_riesgo_estilo_vida, puntos_riesgo, pyMax]

/-- Every report built by the handler carries its five entries, each of
whose probabilities is bounded by `riesgo_general`, which one of them
attains. -/
theorem mkReport_max (raw sys dia glu ldl hdl tot : ℚ) (fum : Bool) (act alc : String) :
    (mkReport raw sys dia glu ldl hdl tot fum act alc).probabilidades_enfermedades.length = 5 ∧
    (∀ e ∈ (mkReport raw sys dia glu ldl hdl tot fum act alc).probabilidades_enfermedades,
      e.probabilidad ≤ (mkReport raw sys dia glu ldl hdl tot fum act alc).riesgo_general) ∧
    (∃ e ∈ (mkReport raw sys dia glu ldl hdl tot fum act alc).probabilidades_enfermedades,
      e.probabilidad = (mkReport raw sys dia glu ldl hdl tot fum act alc).riesgo_general) := by
  obtain ⟨l1, l2, l3, l4, l5, hm⟩ := pyMax_five (prob_coronaria_pct raw)
    (calcular_hipertension sys dia).probabilidad
    (calcular_diabetes glu).probabilidad
    (calcular_dislipidemia ldl hdl tot).probabilidad
    (calcular_riesgo_estilo_vida fum act alc).probabilidad
  refine ⟨rfl, ?_, ?_⟩
  · intro e he
    simp only [mkReport, List.mem_cons, List.not_mem_nil, or_false] at he
    rcases he with rfl | rfl | rfl | rfl | rfl
    · exact l1
    · exact l2
    · exact l3
    · exact l4
    · exact l5
  · rcases hm with h | h | h | h | h
    · refine ⟨⟨"Coronary Artery Disease", prob_coronaria_pct raw,
        nivel_riesgo_coronario raw⟩, by simp [mkReport], h.symm⟩
    · refine ⟨⟨"Hypertension", (calcular_hipertension sys dia).probabilidad,
        (calcular_hipertension sys dia).nivel⟩, by simp [mkReport], h.symm⟩
    · refine ⟨⟨"Type 2 Diabetes", (calcular_diabetes glu).probabilidad,
        (calcular_diabetes glu).nivel⟩, by simp [mkReport], h.symm⟩
    · refine ⟨⟨"Dislipidemia (Colesterol)", (calcular_dislipidemia ldl hdl tot).probabilidad,
        (calcular_dislipidemia ldl hdl tot).nivel⟩, by simp [mkReport], h.symm⟩
    · refine ⟨⟨"Riesgo por Estilo de Vida",
        (calcular_riesgo_estilo_vida fum act alc).probabilidad,
        (calcular_riesgo_estilo_vida fum act alc).nivel⟩, by simp [mkReport], h.symm⟩

/-
The claim theorems.
-/

/-- C1: for every successful evaluation, `riesgo_general` equals the
maximum of the five component probabilities carried by the report: it
bounds every entry of `probabilidades_enfermedades` and is attained by one
of the five entries. -/
theorem riesgo_general_is_max (sc : List ℚ → List ℚ) (mp : List ℚ → ℚ) (data : Payload)
    (report : Report) (h : evaluate_risk sc mp data = Except.ok report) :
    report.probabilidades_enfermedades.length = 5 ∧
    (∀ e ∈ report.probabilidades_enfermedades, e.probabilidad ≤ report.riesgo_general) ∧
    (∃ e ∈ report.probabilidades_enfermedades, e.probabilidad = report.riesgo_general) := by
  obtain ⟨edad, sexo, altura, peso, sys, dia, tot, ldl, hdl, glu, fum, act, alc,
    _, _, _, _, _, _, _, _, _, _, _, _, _, hrep⟩ := evaluate_risk_ok_shape sc mp data report h
  subst hrep
  exact mkReport_max _ sys dia glu ldl hdl tot fum act alc

/-- Witness for C1: the sample payload with a model returning 0. -/
theorem riesgo_general_is_max_witness :
    sampleReport.probabilidades_enfermedades.length = 5 ∧
    (∀ e ∈ sampleReport.probabilidades_enfermedades,
      e.probabilidad ≤ sampleReport.riesgo_general) ∧
    (∃ e ∈ sampleReport.probabilidades_enfermedades,
      e.probabilidad = sampleReport.riesgo_general) :=
  riesgo_general_is_max (fun l => l) (fun _ => 0) samplePayload sampleReport sample_eval

/-- C2: for every raw model probability in `[0, 1]`, the adapter reports
the integer percentage obtained by truncating `raw * 100` — which on this
range is the floor — and derives the level from the untruncated raw value
via the thresholds 0.70 (Alto) and 0.30 (Moderado). -/
theorem coronario_adapter_spec (prob_raw : ℚ) (h0 : 0 ≤ prob_raw) (h1 : prob_raw ≤ 1) :
    prob_coronaria_pct prob_raw = ⌊prob_raw * 100⌋ ∧
    ((0.70:ℚ) ≤ prob_raw → nivel_riesgo_coronario prob_raw = "Alto") ∧
    ((0.30:ℚ) ≤ prob_raw → prob_raw < 0.70 → nivel_riesgo_coronario prob_raw = "Moderado") ∧
    (prob_raw < (0.30:ℚ) → nivel_riesgo_coronario prob_raw = "Bajo") := by
  refine ⟨?_, fun h => ?_, fun ha hb => ?_, fun h => ?_⟩
  · unfold prob_coronaria_pct pyInt
    rw [if_pos (mul_nonneg h0 (by norm_num))]
  · unfold nivel_riesgo_coronario
    rw [if_pos h]
  · unfold nivel_riesgo_coronario
    rw [if_neg (not_le.mpr hb), if_pos ha]
  · unfold nivel_riesgo_coronario
    rw [if_neg (by linarith), if_neg (not_le.mpr h)]

/-- Witness for C2: raw 0.6999 yields 69 percent at level Moderado, and
raw 0.70 yields 70 percent at level Alto. -/
theorem coronario_adapter_witness :
    prob_coronaria_pct (6999/10000) = 69 ∧
    nivel_riesgo_coronario (6999/10000) = "Moderado" ∧
    prob_coronaria_pct (7/10) = 70 ∧ nivel_riesgo_coronario (7/10) = "Alto" := by
  have ha := coronario_adapter_spec (6999/10000) (by norm_num) (by norm_num)
  have hb := coronario_adapter_spec (7/10) (by norm_num) (by norm_num)
  refine ⟨?_, ha.2.2.1 (by norm_num) (by norm_num), ?_, hb.2.1 (by norm_num)⟩
  · rw [ha.1, Int.floor_eq_iff]
    norm_num
  · rw [hb.1, Int.floor_eq_iff]
    norm_num

/-- C3: for every LDL, HDL and total-cholesterol input, the dyslipidemia
rule yields a probability in the canonical set, returns the low assessment
when no sub-check triggers, and otherwise returns a triggered sub-check
assessment whose probability dominates all triggered sub-checks. -/
theorem dislipidemia_worst_case (ldl hdl total : ℚ) :
    (calcular_dislipidemia ldl hdl total).probabilidad ∈ ([10, 50, 60, 80, 85, 90] : List ℤ) ∧
    (dislipidemia_riesgos ldl hdl total = [] →
      calcular_dislipidemia ldl hdl total = ⟨10, "Bajo"⟩) ∧
    (∀ x ∈ dislipidemia_riesgos ldl hdl total,
      x.probabilidad ≤ (calcular_dislipidemia ldl hdl total).probabilidad) ∧
    (dislipidemia_riesgos ldl hdl total ≠ [] →
      calcular_dislipidemia ldl hdl total ∈ dislipidemia_riesgos ldl hdl total) :=
  dislipidemia_spec ldl hdl total

/-- C4: the lifestyle rule awards one point each for smoking, a sedentary
activity level, and moderate or high alcohol use, and maps point totals
0, 1, 2, 3 to the assessments 10/Bajo, 30/Bajo, 60/Moderado, 90/Alto. -/
theorem estilo_vida_table (fumador : Bool) (actividad alcohol : String) :
    puntos_riesgo fumador actividad alcohol ≤ 3 ∧
    (puntos_riesgo fumador actividad alcohol = 0 →
      calcular_riesgo_estilo_vida fumador actividad alcohol = ⟨10, "Bajo"⟩) ∧
    (puntos_riesgo fumador actividad alcohol = 1 →
      calcular_riesgo_estilo_vida fumador actividad alcohol = ⟨30, "Bajo"⟩) ∧
    (puntos_riesgo fumador actividad alcohol = 2 →
      calcular_riesgo_estilo_vida fumador actividad alcohol = ⟨60, "Moderado"⟩) ∧
    (puntos_riesgo fumador actividad alcohol = 3 →
      calcular_riesgo_estilo_vida fumador actividad alcohol = ⟨90, "Alto"⟩) := by
  cases fumador <;> by_cases ha : actividad = "Sedentario" <;>
    by_cases hb : (alcohol = "Moderado" ∨ alcohol = "Alto") <;>
    simp only [calcular_riesgo_estilo_vida, puntos_riesgo, ha, hb, ite_true, ite_false] <;>
    decide

/-- C5: the hypertension rule returns the first matching band in priority
order: 140/90 and above gives 92/Alto, then 130/80 gives 75/Moderado, then
elevated systolic with diastolic under 80 gives 45/Moderado, else
10/Bajo. -/
theorem hipertension_bands (s d : ℚ) :
    (140 ≤ s ∨ 90 ≤ d → calcular_hipertension s d = ⟨92, "Alto"⟩) ∧
    (¬(140 ≤ s ∨ 90 ≤ d) → (130 ≤ s ∨ 80 ≤ d) →
      calcular_hipertension s d = ⟨75, "Moderado"⟩) ∧
    (¬(140 ≤ s ∨ 90 ≤ d) → ¬(130 ≤ s ∨ 80 ≤ d) → 120 ≤ s ∧ d < 80 →
      calcular_hipertension s d = ⟨45, "Moderado"⟩) ∧
    (¬(140 ≤ s ∨ 90 ≤ d) → ¬(130 ≤ s ∨ 80 ≤ d) → ¬(120 ≤ s ∧ d < 80) →
      calcular_hipertension s d = ⟨10, "Bajo"⟩) := by
  unfold calcular_hipertension
  refine ⟨fun h1 => by rw [if_pos h1],
    fun h1 h2 => by rw [if_neg h1, if_pos h2],
    fun h1 h2 h3 => by rw [if_neg h1, if_neg h2, if_pos h3],
    fun h1 h2 h3 => by rw [if_neg h1, if_neg h2, if_neg h3]⟩

/-- C6: the hypertension rule is monotonic: raising either pressure never
lowers the returned probability. -/
theorem hipertension_monotone (s1 d1 s2 d2 : ℚ) (hs : s1 ≤ s2) (hd : d1 ≤ d2) :
    (calcular_hipertension s1 d1).probabilidad ≤ (calcular_hipertension s2 d2).probabilidad := by
  rw [hipertension_prob_eq, hipertension_prob_eq]
  split_ifs <;> try norm_num
  all_goals exfalso
  all_goals push_neg at *
  all_goals casesm* _ ∨ _, _ ∧ _
  all_goals linarith

/-- Witness for C6: comparable concrete pressure pairs. -/
theorem hipertension_monotone_witness :
    (calcular_hipertension 120 70).probabilidad ≤ (calcular_hipertension 145 95).probabilidad :=
  hipertension_monotone 120 70 145 95 (by norm_num) (by norm_num)

/-- C7: whenever at least one required field is absent from the payload,
the handler returns an error naming an absent field, and returns no
report. -/
theorem missing_field_error (sc : List ℚ → List ℚ) (mp : List ℚ → ℚ) (data : Payload)
    (h : ∃ n ∈ requiredFields, fieldMissing data n = true) :
    ∃ n, evaluate_risk sc mp data = Except.error n ∧ fieldMissing data n = true ∧
      ∀ report : Report, evaluate_risk sc mp data ≠ Except.ok report := by
  obtain ⟨oe, os, oa, op, ops, opd, oct, ocl, och, og, ofu, oaf, oca⟩ := data
  obtain _ | altura := oa
  · exact ⟨"altura_cm", rfl, rfl, error_ne_ok rfl⟩
  obtain _ | peso := op
  · exact ⟨"peso_kg", rfl, rfl, error_ne_ok rfl⟩
  obtain _ | edad := oe
  · exact ⟨"edad", rfl, rfl, error_ne_ok rfl⟩
  obtain _ | sexo := os
  · exact ⟨"sexo", rfl, rfl, error_ne_ok rfl⟩
  obtain _ | sys := ops
  · exact ⟨"presion_sistolica", rfl, rfl, error_ne_ok rfl⟩
  obtain _ | dia := opd
  · exact ⟨"presion_diastolica", rfl, rfl, error_ne_ok rfl⟩
  obtain _ | tot := oct
  · exact ⟨"colesterol_total", rfl, rfl, error_ne_ok rfl⟩
  obtain _ | glu := og
  · exact ⟨"glucosa", rfl, rfl, error_ne_ok rfl⟩
  obtain _ | fum := ofu
  · exact ⟨"fumador", rfl, rfl, error_ne_ok rfl⟩
  obtain _ | ldl := ocl
  · exact ⟨"colesterol_ldl", rfl, rfl, error_ne_ok rfl⟩
  obtain _ | hdl := och
  · exact ⟨"colesterol_hdl", rfl, rfl, error_ne_ok rfl⟩
  obtain _ | act := oaf
  · exact ⟨"actividad_fisica", rfl, rfl, error_ne_ok rfl⟩
  obtain _ | alc := oca
  · exact ⟨"consumo_alcohol", rfl, rfl, error_ne_ok rfl⟩
  exfalso
  obtain ⟨n, hn, hm⟩ := h
  simp only [requiredFields, List.mem_cons, List.not_mem_nil, or_false] at hn
  rcases hn with rfl | rfl | rfl | rfl | rfl | rfl | rfl | rfl | rfl | rfl | rfl | rfl | rfl <;>
    simp [fieldMissing] at hm

/-- Witness for C7: the sample payload with `glucosa` removed. -/
theorem missing_field_error_witness :
    ∃ n, evaluate_risk (fun l => l) (fun _ => 0) missingPayload = Except.error n ∧
      fieldMissing missingPayload n = true ∧
      ∀ report : Report,
        evaluate_risk (fun l => l) (fun _ => 0) missingPayload ≠ Except.ok report :=
  missing_field_error (fun l => l) (fun _ => 0) missingPayload
    ⟨"glucosa", by decide, by decide⟩

/-- C8: every successful report carries exactly the five conditions, in the
fixed source order, each entry holding the probability and level computed
for that condition from the corresponding payload fields. -/
theorem report_conditions_fixed (sc : List ℚ → List ℚ) (mp : List ℚ → ℚ)
    (data : Payload) (report : Report) (h : evaluate_risk sc mp data = Except.ok report) :
    ∃ (sys dia glu ldl hdl tot : ℚ) (fum : Bool) (act alc : String) (raw : ℚ),
      data.presion_sistolica = some sys ∧ data.presion_diastolica = some dia ∧
      data.glucosa = some glu ∧ data.colesterol_ldl = some ldl ∧
      data.colesterol_hdl = some hdl ∧ data.colesterol_total = some tot ∧
      data.fumador = some fum ∧ data.actividad_fisica = some act ∧
      data.consumo_alcohol = some alc ∧
      report.probabilidades_enfermedades =
        [⟨"Coronary Artery Disease", prob_coronaria_pct raw, nivel_riesgo_coronario raw⟩,
          ⟨"Hypertension", (calcular_hipertension sys dia).probabilidad,
            (calcular_hipertension sys dia).nivel⟩,
          ⟨"Type 2 Diabetes", (calcular_diabetes glu).probabilidad,
            (calcular_diabetes glu).nivel⟩,
          ⟨"Dislipidemia (Colesterol)", (calcular_dislipidemia ldl hdl tot).probabilidad,
            (calcular_dislipidemia ldl hdl tot).nivel⟩,
          ⟨"Riesgo por Estilo de Vida", (calcular_riesgo_estilo_vida fum act alc).probabilidad,
            (calcular_riesgo_estilo_vida fum act alc).nivel⟩] := by
  obtain ⟨edad, sexo, altura, peso, sys, dia, tot, ldl, hdl, glu, fum, act, alc,
    _, _, _, _, hsys, hdia, htot, hldl, hhdl, hglu, hfum, hact, halc,
    hrep⟩ := evaluate_risk_ok_shape sc mp data report h
  subst hrep
  exact ⟨sys, dia, glu, ldl, hdl, tot, fum, act, alc, _,
    hsys, hdia, hglu, hldl, hhdl, htot, hfum, hact, halc, rfl⟩

/-- Witness for C8: the sample payload with a model returning 0. -/
theorem report_conditions_fixed_witness :
    ∃ (sys dia glu ldl hdl tot : ℚ) (fum : Bool) (act alc : String) (raw : ℚ),
      samplePayload.presion_sistolica = some sys ∧
      samplePayload.presion_diastolica = some dia ∧
      samplePayload.glucosa = some glu ∧ samplePayload.colesterol_ldl = some ldl ∧
      samplePayload.colesterol_hdl = some hdl ∧ samplePayload.colesterol_total = some tot ∧
      samplePayload.fumador = some fum ∧ samplePayload.actividad_fisica = some act ∧
      samplePayload.consumo_alcohol = some alc ∧
      sampleReport.probabilidades_enfermedades =
        [⟨"Coronary Artery Disease", prob_coronaria_pct raw, nivel_riesgo_coronario raw⟩,
          ⟨"Hypertension", (calcular_hipertension sys dia).probabilidad,
            (calcular_hipertension sys dia).nivel⟩,
          ⟨"Type 2 Diabetes", (calcular_diabetes glu).probabilidad,
            (calcular_diabetes glu).nivel⟩,
          ⟨"Dislipidemia (Colesterol)", (calcular_dislipidemia ldl hdl tot).probabilidad,
            (calcular_dislipidemia ldl hdl tot).nivel⟩,
          ⟨"Riesgo por Estilo de Vida", (calcular_riesgo_estilo_vida fum act alc).probabilidad,
            (calcular_riesgo_estilo_vida fum act alc).nivel⟩] :=
  report_conditions_fixed (fun l => l) (fun _ => 0) samplePayload sampleReport sample_eval

/-- C9: the four rule functions return at least 10 in every branch, so the
overall risk of every successful evaluation is at least 10, regardless of
the model output. -/
theorem overall_risk_at_least_ten (sc : List ℚ → List ℚ) (mp : List ℚ → ℚ)
    (data : Payload) (report : Report) (h : evaluate_risk sc mp data = Except.ok report) :
    (∀ s d, 10 ≤ (calcular_hipertension s d).probabilidad) ∧
    (∀ g, 10 ≤ (calcular_diabetes g).probabilidad) ∧
    (∀ ldl hdl tot, 10 ≤ (calcular_dislipidemia ldl hdl tot).probabilidad) ∧
    (∀ f a al, 10 ≤ (calcular_riesgo_estilo_vida f a al).probabilidad) ∧
    10 ≤ report.riesgo_general := by
  refine ⟨hipertension_ge_ten, diabetes_ge_ten, dislipidemia_ge_ten, estilo_ge_ten, ?_⟩
  obtain ⟨edad, sexo, altura, peso, sys, dia, tot, ldl, hdl, glu, fum, act, alc,
    _, _, _, _, _, _, _, _, _, _, _, _, _, hrep⟩ := evaluate_risk_ok_shape sc mp data report h
  subst hrep
  obtain ⟨l1, l2, l3, l4, l5, hm⟩ := pyMax_five
    (prob_coronaria_pct (mp (sc (featureVector edad sexo sys dia tot glu
      (peso / ((altura / 100) ^ 2)) fum))))
    (calcular_hipertension sys dia).probabilidad
    (calcular_diabetes glu).probabilidad
    (calcular_dislipidemia ldl hdl tot).probabilidad
    (calcular_riesgo_estilo_vida fum act alc).probabilidad
  exact le_trans (hipertension_ge_ten sys dia) l2

/-- Witness for C9: the sample payload with a model returning 0. -/
theorem overall_risk_at_least_ten_witness :
    (∀ s d, 10 ≤ (calcular_hipertension s d).probabilidad) ∧
    (∀ g, 10 ≤ (calcular_diabetes g).probabilidad) ∧
    (∀ ldl hdl tot, 10 ≤ (calcular_dislipidemia ldl hdl tot).probabilidad) ∧
    (∀ f a al, 10 ≤ (calcular_riesgo_estilo_vida f a al).probabilidad) ∧
    10 ≤ sampleReport.riesgo_general :=
  overall_risk_at_least_ten (fun l => l) (fun _ => 0) samplePayload sampleReport sample_eval

/-- C10: the diabetes rule is monotonic in glucose: a higher glucose value
never yields a lower probability. -/
theorem diabetes_monotone (g1 g2 : ℚ) (hg : g1 ≤ g2) :
    (calcular_diabetes g1).probabilidad ≤ (calcular_diabetes g2).probabilidad := by
  rw [diabetes_prob_eq, diabetes_prob_eq]
  split_ifs <;> try norm_num
  all_goals linarith

/-- Witness for C10: concrete glucose values 90 and 130. -/
theorem diabetes_monotone_witness :
    (calcular_diabetes 90).probabilidad ≤ (calcular_diabetes 130).probabilidad :=
  diabetes_monotone 90 130 (by norm_num)

end App
